import Mathlib

/-!
Shallow embedding of `src/config/have_sys_socket.c` from the stumpless
repository: a mutex-guarded network target holding at most one OS socket
handle, with open/reopen/close/send operations over TCP and UDP
(IPv4/IPv6).  OS syscalls (`config_int_connect`, `send`, `recv`, `close`)
are modelled by explicit oracles/event lists; the embedding records, for
each call, the resulting target state, the handles passed to `close`, the
byte chunks handed to `send`, and the error conditions raised.  Machine
integers: `size_t` values are `Nat`, `ssize_t`/`int` results are `Int`,
with `-1` the failure/closed sentinel throughout, as in the source.
-/

/-- Linux value of `AF_INET`. -/
def AF_INET : Nat := 2

/-- Linux value of `AF_INET6`. -/
def AF_INET6 : Nat := 10

/-- Linux value of `SOCK_STREAM`. -/
def SOCK_STREAM : Nat := 1

/-- Linux value of `SOCK_DGRAM`. -/
def SOCK_DGRAM : Nat := 2

/-- Linux value of the `MSG_PEEK` recv flag. -/
def MSG_PEEK : Nat := 2

/-- Linux value of the `MSG_DONTWAIT` recv flag. -/
def MSG_DONTWAIT : Nat := 64

/-- The `struct network_target` fields this translation unit touches:
`destination` and `port` (immutable strings) and the OS socket `handle`,
with `-1` the closed sentinel.  The mutex only serializes calls and has no
effect on the sequential semantics embedded here, so it is not a field. -/
structure network_target where
  destination : String
  port : String
  handle : Int
deriving Repr, DecidableEq

/-- Oracle for the external collaborator `config_int_connect`: given
destination, port, address family, socket type and protocol, returns the
new socket handle, or `-1` on failure. -/
def ConnectFn : Type := String → String → Nat → Nat → Nat → Int

/-- Error conditions raised through the error-reporting collaborator:
`raise_network_closed` and `raise_socket_send_failure` (the latter carries
`errno` as its OS error code). -/
inductive SysError where
  | network_closed : SysError
  | socket_send_failure : Int → SysError
deriving Repr, DecidableEq

/-- Result of one of the open/reopen operations: the target state after
the call, whether the call returned the target reference (`true`) or the
NULL failure indicator (`false`), the handles passed to `close` during the
call, and the `(address family, socket type)` pair of each
`config_int_connect` call made. -/
structure open_result where
  target : network_target
  returned : Bool
  closed : List Int
  connectCalls : List (Nat × Nat)
deriving Repr, DecidableEq

/-- `sys_socket_init_network_target`: sets `handle` to `-1` and
constructs the mutex (the mutex has no sequential effect). -/
def sys_socket_init_network_target (target : network_target) : network_target :=
  { target with handle := -1 }

/-- `sys_socket_network_target_is_open`: returns `target->handle != -1`.
The source reads the handle and mutates nothing, hence a pure function. -/
def sys_socket_network_target_is_open (target : network_target) : Bool :=
  target.handle != -1

/-- `sys_socket_open_tcp4_target`: connect with `(AF_INET, SOCK_STREAM)`,
store the result into `handle`, return NULL exactly when the result is
`-1`.  No `close` call occurs anywhere in the function. -/
def sys_socket_open_tcp4_target (conn : ConnectFn) (target : network_target) :
    open_result :=
  let result := conn target.destination target.port AF_INET SOCK_STREAM 0
  { target := { target with handle := result },
    returned := if result = -1 then false else true,
    closed := [],
    connectCalls := [(AF_INET, SOCK_STREAM)] }

/-- `sys_socket_open_tcp6_target`: as `sys_socket_open_tcp4_target` with
`(AF_INET6, SOCK_STREAM)`. -/
def sys_socket_open_tcp6_target (conn : ConnectFn) (target : network_target) :
    open_result :=
  let result := conn target.destination target.port AF_INET6 SOCK_STREAM 0
  { target := { target with handle := result },
    returned := if result = -1 then false else true,
    closed := [],
    connectCalls := [(AF_INET6, SOCK_STREAM)] }

/-- `sys_socket_open_udp4_target`: as `sys_socket_open_tcp4_target` with
`(AF_INET, SOCK_DGRAM)`. -/
def sys_socket_open_udp4_target (conn : ConnectFn) (target : network_target) :
    open_result :=
  let result := conn target.destination target.port AF_INET SOCK_DGRAM 0
  { target := { target with handle := result },
    returned := if result = -1 then false else true,
    closed := [],
    connectCalls := [(AF_INET, SOCK_DGRAM)] }

/-- `sys_socket_open_udp6_target`: as `sys_socket_open_tcp4_target` with
`(AF_INET6, SOCK_DGRAM)`. -/
def sys_socket_open_udp6_target (conn : ConnectFn) (target : network_target) :
    open_result :=
  let result := conn target.destination target.port AF_INET6 SOCK_DGRAM 0
  { target := { target with handle := result },
    returned := if result = -1 then false else true,
    closed := [],
    connectCalls := [(AF_INET6, SOCK_DGRAM)] }

/-- `sys_socket_reopen_tcp4_target`: if the target is open, close the
existing handle and reconnect with `(AF_INET, SOCK_STREAM)`; otherwise do
nothing.  Always returns the target reference. -/
def sys_socket_reopen_tcp4_target (conn : ConnectFn) (target : network_target) :
    open_result :=
  if sys_socket_network_target_is_open target then
    { target :=
        { target with
          handle := conn target.destination target.port AF_INET SOCK_STREAM 0 },
      returned := true,
      closed := [target.handle],
      connectCalls := [(AF_INET, SOCK_STREAM)] }
  else
    { target := target, returned := true, closed := [], connectCalls := [] }

/-- `sys_socket_reopen_tcp6_target`: as the tcp4 reopen with
`(AF_INET6, SOCK_STREAM)`. -/
def sys_socket_reopen_tcp6_target (conn : ConnectFn) (target : network_target) :
    open_result :=
  if sys_socket_network_target_is_open target then
    { target :=
        { target with
          handle := conn target.destination target.port AF_INET6 SOCK_STREAM 0 },
      returned := true,
      closed := [target.handle],
      connectCalls := [(AF_INET6, SOCK_STREAM)] }
  else
    { target := target, returned := true, closed := [], connectCalls := [] }

/-- `sys_socket_reopen_udp4_target`: as the tcp4 reopen with
`(AF_INET, SOCK_DGRAM)`. -/
def sys_socket_reopen_udp4_target (conn : ConnectFn) (target : network_target) :
    open_result :=
  if sys_socket_network_target_is_open target then
    { target :=
        { target with
          handle := conn target.destination target.port AF_INET SOCK_DGRAM 0 },
      returned := true,
      closed := [target.handle],
      connectCalls := [(AF_INET, SOCK_DGRAM)] }
  else
    { target := target, returned := true, closed := [], connectCalls := [] }

/-- `sys_socket_reopen_udp6_target`: as the tcp4 reopen with
`(AF_INET6, SOCK_DGRAM)`. -/
def sys_socket_reopen_udp6_target (conn : ConnectFn) (target : network_target) :
    open_result :=
  if sys_socket_network_target_is_open target then
    { target :=
        { target with
          handle := conn target.destination target.port AF_INET6 SOCK_DGRAM 0 },
      returned := true,
      closed := [target.handle],
      connectCalls := [(AF_INET6, SOCK_DGRAM)] }
  else
    { target := target, returned := true, closed := [], connectCalls := [] }

/-- One loop iteration's worth of OS syscall results inside
`sys_socket_sendto_tcp_target`: the value returned by
`recv( handle, buf, 1, MSG_DONTWAIT )`, the value returned by `send`, and
the value `errno` holds when `send` fails. -/
structure TcpSendEvent where
  recvRes : Int
  sendRes : Int
  errnoVal : Int
deriving Repr, DecidableEq

/-- Result of a TCP or UDP send call: the `int` return value, the handle
stored in the target afterwards, the handles passed to `close`, the byte
chunks handed to the OS by `send` (concatenated, in call order), and the
errors raised. -/
structure send_call_result where
  result : Int
  handle : Int
  closed : List Int
  transmitted : List Nat
  errors : List SysError
deriving Repr, DecidableEq

/-- The `while( sent_bytes < msg_size )` loop of
`sys_socket_sendto_tcp_target`.  Each iteration consumes one
`TcpSendEvent`.  On `recv_result == 0` it raises `network_closed`, closes
the handle, sets it to `-1` and breaks with result `-1`; on
`send_result == -1` it raises `socket_send_failure errno` and breaks with
result `-1` leaving the handle untouched; otherwise `sent_bytes` advances
by `send_result`.  The buffer passed to `send` is the pointer `msg`
(offset 0) with length `msg_size - sent_bytes`, exactly as in the source,
so the chunk the OS accepts is the first `send_result` bytes of
`msg.take (msg_size - sent_bytes)`.  Returns `none` when the event list
runs out before the loop terminates. -/
def sendto_tcp_loop (handle : Int) (msg : List Nat) (msg_size : Nat)
    (sent_bytes : Nat) : List TcpSendEvent → Option send_call_result
  | [] =>
    if sent_bytes < msg_size then none
    else some ⟨1, handle, [], [], []⟩
  | e :: rest =>
    if sent_bytes < msg_size then
      if e.recvRes = 0 then
        some ⟨-1, -1, [handle], [], [SysError.network_closed]⟩
      else if e.sendRes = -1 then
        some ⟨-1, handle, [], [], [SysError.socket_send_failure e.errnoVal]⟩
      else
        let chunk := (msg.take (msg_size - sent_bytes)).take e.sendRes.toNat
        match sendto_tcp_loop handle msg msg_size
            (sent_bytes + e.sendRes.toNat) rest with
        | none => none
        | some r => some { r with transmitted := chunk ++ r.transmitted }
    else
      some ⟨1, handle, [], [], []⟩

/-- `sys_socket_sendto_tcp_target`: runs the send loop starting from
`sent_bytes = 0` on the target's handle. -/
def sys_socket_sendto_tcp_target (target : network_target) (msg : List Nat)
    (msg_size : Nat) (events : List TcpSendEvent) : Option send_call_result :=
  sendto_tcp_loop target.handle msg msg_size 0 events

/-- Result of `sys_socket_sendto_udp_target`, also counting how many
`send` syscalls the call performed. -/
structure udp_send_result where
  result : Int
  handle : Int
  closed : List Int
  transmitted : List Nat
  errors : List SysError
  sendAttempts : Nat
deriving Repr, DecidableEq

/-- `sys_socket_sendto_udp_target`: one `send` of `msg` with length
`msg_size`; on `send_result == -1` raises `socket_send_failure errno` and
returns `-1`, else returns `1`.  The target is `const`: its handle is
never written and no `close` occurs.  `sendRes` and `errnoVal` are the
oracle values for the single `send` call. -/
def sys_socket_sendto_udp_target (target : network_target) (msg : List Nat)
    (msg_size : Nat) (sendRes errnoVal : Int) : udp_send_result :=
  if sendRes = -1 then
    ⟨-1, target.handle, [], [], [SysError.socket_send_failure errnoVal], 1⟩
  else
    ⟨1, target.handle, [], (msg.take msg_size).take sendRes.toNat, [], 1⟩

/-- Model of POSIX `recv` on a connected stream socket, parameterized by
the OS-side state: `peerClosed` records an orderly shutdown by the peer
and `inbound` is the queue of received-but-unread bytes.  Returns `none`
when the call would block, otherwise the return value and the queue after
the call: available bytes are copied out and, unless `MSG_PEEK` is set in
`flags`, removed from the queue; an empty queue yields `0` after an
orderly shutdown, and `-1` (`EWOULDBLOCK`) when `MSG_DONTWAIT` is set. -/
def recv_os (len flags : Nat) (peerClosed : Bool) (inbound : List Nat) :
    Option (Int × List Nat) :=
  match inbound with
  | [] =>
    if peerClosed then some (0, [])
    else if flags &&& MSG_DONTWAIT != 0 then some (-1, [])
    else none
  | _ :: _ =>
    let n := min len inbound.length
    some ((n : Int), if flags &&& MSG_PEEK != 0 then inbound else inbound.drop n)

/-- The per-iteration peer-shutdown check of `sys_socket_sendto_tcp_target`:
`recv( target->handle, recv_buffer, 1, MSG_DONTWAIT )`, applied to the OS
recv model. -/
def tcp_fin_check (peerClosed : Bool) (inbound : List Nat) :
    Option (Int × List Nat) :=
  recv_os 1 MSG_DONTWAIT peerClosed inbound

/-- Modelled from the spec: the single parameterized open routine of
section 4.1 — connect to `destination:port` with the given address family
and socket type, store the resulting handle (the closed sentinel on
failure), return the target on success or the failure indicator when the
connect failed. -/
def open_network_target_param (conn : ConnectFn) (family socktype : Nat)
    (target : network_target) : open_result :=
  let result := conn target.destination target.port family socktype 0
  { target := { target with handle := result },
    returned := if result = -1 then false else true,
    closed := [],
    connectCalls := [(family, socktype)] }

/-- Modelled from the spec: the single parameterized reopen routine of
section 4.1 — if the target is currently open, close the existing handle
and connect again with the same family and socket type; otherwise a
no-op; always returns the target. -/
def reopen_network_target_param (conn : ConnectFn) (family socktype : Nat)
    (target : network_target) : open_result :=
  if sys_socket_network_target_is_open target then
    { target :=
        { target with
          handle := conn target.destination target.port family socktype 0 },
      returned := true,
      closed := [target.handle],
      connectCalls := [(family, socktype)] }
  else
    { target := target, returned := true, closed := [], connectCalls := [] }

/-- C1: the code, evaluated at a two-byte message whose first send is
accepted only in part (the OS takes 1 byte each time, the peek returns
`-1`/`EWOULDBLOCK`), returns success yet hands the OS the first byte of
the message twice: `send` is always given the pointer `msg`, not
`msg + sent_bytes`, so a retry after a short send retransmits the start of
the buffer instead of resuming at the offset already sent, refuting the
claim that exactly the S bytes of the message are transmitted in order. -/
theorem sendto_tcp_retry_restarts_from_buffer_start :
    sys_socket_sendto_tcp_target ⟨"d", "514", 3⟩ [10, 20] 2
        [⟨-1, 1, 0⟩, ⟨-1, 1, 0⟩] =
      some ⟨1, 3, [], [10, 10], []⟩ ∧
    ([10, 10] : List Nat) ≠ [10, 20] := by
  exact ⟨rfl, by decide⟩

/-- C2 counterexample: an open target (handle `5`) passed to
`sys_socket_open_tcp4_target` with a connect oracle returning `7` gets the
new handle stored while the `close` list stays empty: the prior handle is
never closed, refuting the claim that each open operation closes any
handle associated with the target before storing a new one. -/
theorem open_tcp4_overwrites_prior_handle_without_closing :
    sys_socket_network_target_is_open ⟨"d", "514", 5⟩ = true ∧
    (sys_socket_open_tcp4_target (fun _ _ _ _ _ => 7) ⟨"d", "514", 5⟩).closed
      = [] ∧
    (sys_socket_open_tcp4_target
        (fun _ _ _ _ _ => 7) ⟨"d", "514", 5⟩).target.handle = 7 := by
  exact ⟨rfl, rfl, rfl⟩

/-- C2 amended: each of the four reopen operations closes the prior
handle before storing a new one when the target is open, but the four
open operations never close anything — they overwrite the stored
handle. -/
theorem reopen_closes_prior_handle_open_never_closes (conn : ConnectFn)
    (t : network_target) (h : sys_socket_network_target_is_open t = true) :
    (sys_socket_reopen_tcp4_target conn t).closed = [t.handle] ∧
    (sys_socket_reopen_tcp6_target conn t).closed = [t.handle] ∧
    (sys_socket_reopen_udp4_target conn t).closed = [t.handle] ∧
    (sys_socket_reopen_udp6_target conn t).closed = [t.handle] ∧
    (sys_socket_open_tcp4_target conn t).closed = [] ∧
    (sys_socket_open_tcp6_target conn t).closed = [] ∧
    (sys_socket_open_udp4_target conn t).closed = [] ∧
    (sys_socket_open_udp6_target conn t).closed = [] := by
  simp [sys_socket_reopen_tcp4_target, sys_socket_reopen_tcp6_target,
        sys_socket_reopen_udp4_target, sys_socket_reopen_udp6_target,
        sys_socket_open_tcp4_target, sys_socket_open_tcp6_target,
        sys_socket_open_udp4_target, sys_socket_open_udp6_target, h]

/-- C2 amended, witness at a concrete open target. -/
theorem reopen_closes_prior_handle_open_never_closes_witness :
    (sys_socket_reopen_tcp4_target (fun _ _ _ _ _ => 7)
        ⟨"d", "514", 5⟩).closed = [5] ∧
    (sys_socket_open_tcp4_target (fun _ _ _ _ _ => 7)
        ⟨"d", "514", 5⟩).closed = [] := by
  have h := reopen_closes_prior_handle_open_never_closes
    (fun _ _ _ _ _ => 7) ⟨"d", "514", 5⟩ rfl
  exact ⟨h.1, h.2.2.2.2.1⟩

/-- C3 counterexample: with one inbound byte available, the per-iteration
shutdown check of the TCP send loop returns that byte and removes it from
the inbound queue — `recv` is called with `MSG_DONTWAIT` alone, without
`MSG_PEEK`, so available inbound data IS consumed, refuting the claim
that the check is a peek that consumes nothing. -/
theorem tcp_fin_check_consumes_available_byte :
    tcp_fin_check false [7] = some (1, []) ∧ ([] : List Nat) ≠ [7] := by
  exact ⟨rfl, by decide⟩

/-- C3 amended: the per-iteration check is a non-blocking plain read of 1
byte: it never blocks, it detects an orderly shutdown via a zero-length
read, and when inbound data is available it consumes one byte from the
stream. -/
theorem tcp_fin_check_nonblocking_read_semantics (peerClosed : Bool)
    (inbound : List Nat) :
    tcp_fin_check peerClosed inbound ≠ none ∧
    (peerClosed = true → inbound = [] →
      tcp_fin_check peerClosed inbound = some (0, [])) ∧
    (∀ b bs, inbound = b :: bs →
      tcp_fin_check peerClosed inbound = some (1, bs)) := by
  refine ⟨?_, ?_, ?_⟩
  · cases inbound with
    | nil => cases peerClosed <;> simp [tcp_fin_check, recv_os, MSG_DONTWAIT]
    | cons b bs => simp [tcp_fin_check, recv_os]
  · intro hc hi
    subst hc; subst hi
    rfl
  · intro b bs hi
    subst hi
    simp [tcp_fin_check, recv_os, MSG_PEEK, MSG_DONTWAIT, Nat.min_def]
    decide

/-- C3 amended, witness: orderly shutdown yields a zero-length read, and
an available byte is consumed. -/
theorem tcp_fin_check_nonblocking_read_semantics_witness :
    tcp_fin_check true [] = some (0, []) ∧
    tcp_fin_check false [9] = some (1, []) := by
  exact ⟨(tcp_fin_check_nonblocking_read_semantics true []).2.1 rfl rfl,
         (tcp_fin_check_nonblocking_read_semantics false [9]).2.2 9 [] rfl⟩

/-- C4: once the peer has performed an orderly shutdown (every subsequent
peek returns `0`), a TCP send of a nonempty remaining message fails with
`-1`, raises the network-closed error, passes the old handle to `close`,
resets the stored handle to `-1`, and `is_open` on the resulting target
is false. -/
theorem sendto_tcp_peer_shutdown_fails_and_resets (t : network_target)
    (msg : List Nat) (msg_size : Nat) (events : List TcpSendEvent)
    (r : send_call_result)
    (hfin : ∀ e ∈ events, e.recvRes = 0) (hsz : 0 < msg_size)
    (hr : sys_socket_sendto_tcp_target t msg msg_size events = some r) :
    r.result = -1 ∧ r.handle = -1 ∧ t.handle ∈ r.closed ∧
    SysError.network_closed ∈ r.errors ∧
    sys_socket_network_target_is_open { t with handle := r.handle } = false := by
  cases events with
  | nil =>
    unfold sys_socket_sendto_tcp_target sendto_tcp_loop at hr
    simp [hsz] at hr
  | cons e rest =>
    have he : e.recvRes = 0 := hfin e (List.mem_cons_self e rest)
    unfold sys_socket_sendto_tcp_target sendto_tcp_loop at hr
    simp [hsz, he] at hr
    subst hr
    refine ⟨rfl, rfl, List.mem_singleton_self t.handle, ?_, rfl⟩
    exact List.mem_singleton_self SysError.network_closed

/-- C4, witness: a one-event shutdown trace on an open target. -/
theorem sendto_tcp_peer_shutdown_fails_and_resets_witness :
    (-1 : Int) = -1 ∧ (-1 : Int) = -1 ∧
    (3 : Int) ∈ [(3 : Int)] ∧
    SysError.network_closed ∈ [SysError.network_closed] ∧
    sys_socket_network_target_is_open
      { (⟨"d", "514", 3⟩ : network_target) with handle := (-1 : Int) } = false := by
  have h := sendto_tcp_peer_shutdown_fails_and_resets ⟨"d", "514", 3⟩
    [10, 20] 2 [⟨0, 0, 0⟩] ⟨-1, -1, [3], [], [SysError.network_closed]⟩
    (by decide) (by decide) rfl
  exact h

/-- C5: each of the four open operations returns the NULL failure
indicator exactly when the underlying connect fails, in which case the
stored handle is the closed sentinel `-1`, and returns the target
reference when the connect succeeds. -/
theorem open_returns_target_iff_connect_succeeds (conn : ConnectFn)
    (t : network_target) :
    (conn t.destination t.port AF_INET SOCK_STREAM 0 = -1 →
      (sys_socket_open_tcp4_target conn t).returned = false ∧
      (sys_socket_open_tcp4_target conn t).target.handle = -1) ∧
    (conn t.destination t.port AF_INET SOCK_STREAM 0 ≠ -1 →
      (sys_socket_open_tcp4_target conn t).returned = true) ∧
    (conn t.destination t.port AF_INET6 SOCK_STREAM 0 = -1 →
      (sys_socket_open_tcp6_target conn t).returned = false ∧
      (sys_socket_open_tcp6_target conn t).target.handle = -1) ∧
    (conn t.destination t.port AF_INET6 SOCK_STREAM 0 ≠ -1 →
      (sys_socket_open_tcp6_target conn t).returned = true) ∧
    (conn t.destination t.port AF_INET SOCK_DGRAM 0 = -1 →
      (sys_socket_open_udp4_target conn t).returned = false ∧
      (sys_socket_open_udp4_target conn t).target.handle = -1) ∧
    (conn t.destination t.port AF_INET SOCK_DGRAM 0 ≠ -1 →
      (sys_socket_open_udp4_target conn t).returned = true) ∧
    (conn t.destination t.port AF_INET6 SOCK_DGRAM 0 = -1 →
      (sys_socket_open_udp6_target conn t).returned = false ∧
      (sys_socket_open_udp6_target conn t).target.handle = -1) ∧
    (conn t.destination t.port AF_INET6 SOCK_DGRAM 0 ≠ -1 →
      (sys_socket_open_udp6_target conn t).returned = true) := by
  refine ⟨fun h => ?_, fun h => ?_, fun h => ?_, fun h => ?_,
          fun h => ?_, fun h => ?_, fun h => ?_, fun h => ?_⟩ <;>
    simp [sys_socket_open_tcp4_target, sys_socket_open_tcp6_target,
          sys_socket_open_udp4_target, sys_socket_open_udp6_target, h]

/-- C5, witness: a failing connect yields NULL and the sentinel handle; a
succeeding connect yields the target reference. -/
theorem open_returns_target_iff_connect_succeeds_witness :
    ((sys_socket_open_tcp4_target (fun _ _ _ _ _ => -1)
        ⟨"d", "514", 5⟩).returned = false ∧
     (sys_socket_open_tcp4_target (fun _ _ _ _ _ => -1)
        ⟨"d", "514", 5⟩).target.handle = -1) ∧
    (sys_socket_open_tcp4_target (fun _ _ _ _ _ => 7)
        ⟨"d", "514", 5⟩).returned = true := by
  exact ⟨(open_returns_target_iff_connect_succeeds
            (fun _ _ _ _ _ => -1) ⟨"d", "514", 5⟩).1 rfl,
         (open_returns_target_iff_connect_succeeds
            (fun _ _ _ _ _ => 7) ⟨"d", "514", 5⟩).2.1 (by decide)⟩

/-- C6: on a target whose handle is the closed sentinel, each of the four
reopen operations changes nothing, makes no connect call, leaves
`is_open` false, and still returns the target reference; and every reopen
call returns the target reference unconditionally. -/
theorem reopen_closed_noop_and_always_returns_target (conn : ConnectFn)
    (t : network_target) :
    (sys_socket_network_target_is_open t = false →
      (sys_socket_reopen_tcp4_target conn t).target = t ∧
      (sys_socket_reopen_tcp4_target conn t).connectCalls = [] ∧
      sys_socket_network_target_is_open
        (sys_socket_reopen_tcp4_target conn t).target = false ∧
      (sys_socket_reopen_tcp6_target conn t).target = t ∧
      (sys_socket_reopen_tcp6_target conn t).connectCalls = [] ∧
      sys_socket_network_target_is_open
        (sys_socket_reopen_tcp6_target conn t).target = false ∧
      (sys_socket_reopen_udp4_target conn t).target = t ∧
      (sys_socket_reopen_udp4_target conn t).connectCalls = [] ∧
      sys_socket_network_target_is_open
        (sys_socket_reopen_udp4_target conn t).target = false ∧
      (sys_socket_reopen_udp6_target conn t).target = t ∧
      (sys_socket_reopen_udp6_target conn t).connectCalls = [] ∧
      sys_socket_network_target_is_open
        (sys_socket_reopen_udp6_target conn t).target = false) ∧
    (sys_socket_reopen_tcp4_target conn t).returned = true ∧
    (sys_socket_reopen_tcp6_target conn t).returned = true ∧
    (sys_socket_reopen_udp4_target conn t).returned = true ∧
    (sys_socket_reopen_udp6_target conn t).returned = true := by
  constructor
  · intro h
    simp [sys_socket_reopen_tcp4_target, sys_socket_reopen_tcp6_target,
          sys_socket_reopen_udp4_target, sys_socket_reopen_udp6_target, h]
  · unfold sys_socket_reopen_tcp4_target sys_socket_reopen_tcp6_target
      sys_socket_reopen_udp4_target sys_socket_reopen_udp6_target
    refine ⟨?_, ?_, ?_, ?_⟩ <;> split <;> rfl

/-- C6, witness: reopen of a never-opened target is a no-op that returns
the target. -/
theorem reopen_closed_noop_and_always_returns_target_witness :
    (sys_socket_reopen_tcp4_target (fun _ _ _ _ _ => 7)
        ⟨"d", "514", -1⟩).target = (⟨"d", "514", -1⟩ : network_target) ∧
    (sys_socket_reopen_tcp4_target (fun _ _ _ _ _ => 7)
        ⟨"d", "514", -1⟩).connectCalls = [] ∧
    sys_socket_network_target_is_open
      (sys_socket_reopen_tcp4_target (fun _ _ _ _ _ => 7)
        ⟨"d", "514", -1⟩).target = false ∧
    (sys_socket_reopen_tcp4_target (fun _ _ _ _ _ => 7)
        ⟨"d", "514", -1⟩).returned = true := by
  have h := reopen_closed_noop_and_always_returns_target
    (fun _ _ _ _ _ => 7) ⟨"d", "514", -1⟩
  have h1 := h.1 rfl
  exact ⟨h1.1, h1.2.1, h1.2.2.1, h.2.1⟩

/-- C7: an OS-level send error (`send` returns `-1` with the peek not
reporting shutdown) at any iteration of the TCP loop makes the call fail
with `-1` and raise the send-failure error carrying `errno`, while
closing nothing and leaving the stored handle exactly as it was, so the
target stays open; likewise the single UDP send on failure raises the
error with `errno`, returns `-1`, closes nothing and leaves the handle
unchanged. -/
theorem send_failure_reports_errno_and_leaves_handle_open
    (t : network_target) (msg : List Nat) (msg_size sent_bytes : Nat)
    (e : TcpSendEvent) (rest : List TcpSendEvent)
    (t2 : network_target) (m : List Nat) (ms : Nat) (en : Int)
    (hopen : sys_socket_network_target_is_open t = true)
    (hlt : sent_bytes < msg_size) (hrecv : e.recvRes ≠ 0)
    (hsend : e.sendRes = -1) :
    sendto_tcp_loop t.handle msg msg_size sent_bytes (e :: rest) =
      some ⟨-1, t.handle, [], [], [SysError.socket_send_failure e.errnoVal]⟩ ∧
    sys_socket_network_target_is_open { t with handle := t.handle } = true ∧
    sys_socket_sendto_udp_target t2 m ms (-1) en =
      ⟨-1, t2.handle, [], [], [SysError.socket_send_failure en], 1⟩ := by
  refine ⟨?_, hopen, rfl⟩
  unfold sendto_tcp_loop
  simp [hlt, hrecv, hsend]

/-- C7, witness: a failing send mid-message on an open target, and a
failing UDP send. -/
theorem send_failure_reports_errno_and_leaves_handle_open_witness :
    sendto_tcp_loop (3 : Int) [10, 20] 2 1 [⟨-1, -1, 32⟩] =
      some ⟨-1, 3, [], [], [SysError.socket_send_failure 32]⟩ ∧
    sys_socket_network_target_is_open
      { (⟨"d", "514", 3⟩ : network_target) with handle := (3 : Int) } = true ∧
    sys_socket_sendto_udp_target ⟨"u", "514", 4⟩ [1, 2] 2 (-1) 32 =
      ⟨-1, 4, [], [], [SysError.socket_send_failure 32], 1⟩ := by
  exact send_failure_reports_errno_and_leaves_handle_open
    ⟨"d", "514", 3⟩ [10, 20] 2 1 ⟨-1, -1, 32⟩ [] ⟨"u", "514", 4⟩ [1, 2] 2 32
    rfl (by decide) (by decide) rfl

/-- C8: `is_open` is a pure observation returning true exactly when the
handle differs from the closed sentinel `-1`, and `init` stores the
closed sentinel, so `is_open` after `init` is false. -/
theorem is_open_iff_handle_not_sentinel (t : network_target) :
    (sys_socket_network_target_is_open t = true ↔ t.handle ≠ -1) ∧
    (sys_socket_init_network_target t).handle = -1 ∧
    sys_socket_network_target_is_open (sys_socket_init_network_target t)
      = false := by
  refine ⟨?_, rfl, rfl⟩
  simp [sys_socket_network_target_is_open]

/-- C8, witness at a concrete open target. -/
theorem is_open_iff_handle_not_sentinel_witness :
    (sys_socket_network_target_is_open ⟨"d", "514", 3⟩ = true ↔
      (⟨"d", "514", 3⟩ : network_target).handle ≠ -1) ∧
    (sys_socket_init_network_target ⟨"d", "514", 3⟩).handle = -1 ∧
    sys_socket_network_target_is_open
      (sys_socket_init_network_target ⟨"d", "514", 3⟩) = false :=
  is_open_iff_handle_not_sentinel ⟨"d", "514", 3⟩

/-- C9: the four open operations and the four reopen operations are each
instances of one parameterized routine, applied at `(AF_INET,
SOCK_STREAM)`, `(AF_INET6, SOCK_STREAM)`, `(AF_INET, SOCK_DGRAM)` and
`(AF_INET6, SOCK_DGRAM)` respectively. -/
theorem open_reopen_are_one_parameterized_algorithm (conn : ConnectFn)
    (t : network_target) :
    sys_socket_open_tcp4_target conn t =
      open_network_target_param conn AF_INET SOCK_STREAM t ∧
    sys_socket_open_tcp6_target conn t =
      open_network_target_param conn AF_INET6 SOCK_STREAM t ∧
    sys_socket_open_udp4_target conn t =
      open_network_target_param conn AF_INET SOCK_DGRAM t ∧
    sys_socket_open_udp6_target conn t =
      open_network_target_param conn AF_INET6 SOCK_DGRAM t ∧
    sys_socket_reopen_tcp4_target conn t =
      reopen_network_target_param conn AF_INET SOCK_STREAM t ∧
    sys_socket_reopen_tcp6_target conn t =
      reopen_network_target_param conn AF_INET6 SOCK_STREAM t ∧
    sys_socket_reopen_udp4_target conn t =
      reopen_network_target_param conn AF_INET SOCK_DGRAM t ∧
    sys_socket_reopen_udp6_target conn t =
      reopen_network_target_param conn AF_INET6 SOCK_DGRAM t :=
  ⟨rfl, rfl, rfl, rfl, rfl, rfl, rfl, rfl⟩

/-- C10: a UDP send performs exactly one `send` syscall, and returns
success whenever that syscall's result is not `-1`, even when the OS
accepted fewer than `msg_size` bytes — no comparison of the sent count
against `msg_size` exists. -/
theorem sendto_udp_single_attempt_accepts_short_sends (t : network_target)
    (msg : List Nat) (msg_size : Nat) (sendRes errnoVal : Int) :
    (sys_socket_sendto_udp_target t msg msg_size sendRes errnoVal).sendAttempts
      = 1 ∧
    (sendRes ≠ -1 →
      (sys_socket_sendto_udp_target t msg msg_size sendRes errnoVal).result
        = 1) := by
  unfold sys_socket_sendto_udp_target
  constructor
  · split <;> rfl
  · intro h
    simp [h]

/-- C10, witness: the OS accepts 1 byte of a 5-byte datagram and the call
still reports success after its single attempt. -/
theorem sendto_udp_single_attempt_accepts_short_sends_witness :
    (sys_socket_sendto_udp_target ⟨"d", "514", 3⟩ [10, 20, 30, 40, 50] 5 1 0).sendAttempts
      = 1 ∧
    (sys_socket_sendto_udp_target ⟨"d", "514", 3⟩ [10, 20, 30, 40, 50] 5 1 0).result
      = 1 := by
  have h := sendto_udp_single_attempt_accepts_short_sends
    ⟨"d", "514", 3⟩ [10, 20, 30, 40, 50] 5 1 0
  exact ⟨h.1, h.2 (by decide)⟩
